import Mathlib

/-
  Verification development for the LightSpeed-Extension repository.

  Shallow embedding of the Chrome-extension client code:
  - chrome-extension/content.js   (category detection, export button, alert building)
  - chrome-extension/background.js (message listener: saveConnectionKey / openGallery / runExport)
  - the unnamed gallery-enabled variants of the two scripts (part_000, part_001)
  - a spec-modelled SharedKeyVault (the backend export_backend.py is not in the sources)

  JavaScript strings are modelled as Lean strings (sequences of characters);
  JS `undefined`/`null`-able strings are `Option String`; JS truthiness of a
  string (empty string is falsy) is modelled explicitly.
-/

/-- JS `a || b` for a possibly absent string `a` (undefined, null and the
empty string are falsy) and a present default `b`. -/
def jsOrOptStr : Option String → String → String
  | some s, d => if s = "" then d else s
  | none, d => d

/-- JS `a || b` chaining two possibly absent strings, keeping absence. -/
def jsOrAttr : Option String → Option String → Option String
  | some s, b => if s = "" then b else some s
  | none, b => b

/-- JS truthiness of a possibly absent string. -/
def jsTruthy : Option String → Bool
  | some s => s != ""
  | none => false

/-- JS `s.trim()`: removal of leading and trailing whitespace, on the
character list (an executable counterpart of String.trim). -/
def strTrim (s : String) : String :=
  String.mk (((s.toList.dropWhile Char.isWhitespace).reverse.dropWhile Char.isWhitespace).reverse)

/-- Whether `pat` is a prefix of `l` (character lists). -/
def listStartsWith : List Char → List Char → Bool
  | [], _ => true
  | _ :: _, [] => false
  | p :: ps, c :: cs => (p == c) && listStartsWith ps cs

/-- Whether `pat` occurs as a contiguous substring of `l`. -/
def listHasSub (pat : List Char) : List Char → Bool
  | [] => listStartsWith pat []
  | c :: cs => listStartsWith pat (c :: cs) || listHasSub pat cs

/-- JS `s.includes(pat)`. -/
def strHasSub (s pat : String) : Bool := listHasSub pat.toList s.toList

/-- Case-insensitive prefix test; `pat` is given in lowercase
(models the `i` regex flag). -/
def startsWithCI (pat l : List Char) : Bool := listStartsWith pat (l.map Char.toLower)

/-- Maximal run of decimal digits at the front of `l` (a greedy regex `\d+`). -/
def digitsRun (l : List Char) : List Char := l.takeWhile Char.isDigit

/-- A `(\d+)` capture at the current position: the maximal digit run,
failing when it is empty. -/
def digitCapture (rest : List Char) : Option String :=
  let d := digitsRun rest
  if d.isEmpty then none else some (String.mk d)

/-- JS `/^\d+$/.test(s)`: `s` is a non-empty all-digit string. -/
def isDigitStr (s : String) : Bool := !s.toList.isEmpty && s.toList.all Char.isDigit

/-- Match of `/category[\/=](\d+)/i` anchored at the current position
(content.js line 22, first hash pattern). -/
def catSepAt (l : List Char) : Option String :=
  if startsWithCI ("category".toList) l then
    match l.drop 8 with
    | c :: rest => if c = '/' ∨ c = '=' then digitCapture rest else none
    | [] => none
  else none

/-- Match of `/\/(\d+)(?:\?|$)/` anchored at the current position
(content.js line 22, second hash pattern): a slash, a maximal digit run,
then a question mark or the end of the string. -/
def slashDigitsAt : List Char → Option String
  | '/' :: rest =>
    (match digitCapture rest with
      | some r =>
        match rest.drop (digitsRun rest).length with
        | [] => some r
        | c :: _ => if c = '?' then some r else none
      | none => none)
  | _ => none

/-- Match of `/categor(?:y|ies)[\/](\d+)/i` anchored at the current position
(content.js line 26, path pattern). The two alternation branches start with
distinct letters, so no backtracking is needed. -/
def pathCatAt (l : List Char) : Option String :=
  if startsWithCI ("categor".toList) l then
    match l.drop 7 with
    | c :: rest =>
      if c.toLower = 'y' then
        match rest with
        | '/' :: rs => digitCapture rs
        | _ => none
      else if c.toLower = 'i' ∧ startsWithCI ("es".toList) rest then
        match rest.drop 2 with
        | '/' :: rs => digitCapture rs
        | _ => none
      else none
    | [] => none
  else none

/-- Leftmost-match regex search: try the anchored matcher at every position,
left to right (JS `String.prototype.match` for the patterns above, which
cannot match the empty string). -/
def scanFirst (f : List Char → Option String) : List Char → Option String
  | [] => none
  | c :: cs =>
    match f (c :: cs) with
    | some r => some r
    | none => scanFirst f cs

/-- First element of `[data-category-id], [data-categoryid]` on the page:
the values of its two data attributes (`getAttribute` returns null when the
attribute is missing). -/
structure DataAttrEl where
  categoryIdAttr : Option String
  categoryidAttr : Option String

/-- State of the page as observed by content.js: parsed URL query parameters
(first occurrence wins, as in `URLSearchParams.get`), the `hash` and
`pathname` parts of the URL, the first data-attribute element, and the value
of the first category-named select (none when no such select exists). -/
structure Page where
  searchParams : List (String × String)
  hash : String
  pathname : String
  dataEl : Option DataAttrEl
  selectValue : Option String

/-- The value of a query parameter, as `URLSearchParams.get` (first pair with
that exact key, null when absent). -/
def getParam (page : Page) (name : String) : Option String :=
  (page.searchParams.find? (fun p => p.1 == name)).map (fun p => p.2)

/-- Query parameter names probed by getCategoryFromPage (content.js line 14). -/
def paramNames : List String := ["category", "categoryId", "categoryID", "category_id"]

/-- The for-loop over paramNames in getCategoryFromPage: return the first
parameter value that is a non-empty digit string. -/
def findParamCat (page : Page) : List String → Option String
  | [] => none
  | n :: ns =>
    match getParam page n with
    | some v => if v != "" && isDigitStr v then some v else findParamCat page ns
    | none => findParamCat page ns

/-- DOM data-attribute probe of getCategoryFromPage (content.js lines 30-34):
`getAttribute('data-category-id') || getAttribute('data-categoryid')`,
returned when truthy and all digits. -/
def domDataCategory (page : Page) : Option String :=
  match page.dataEl with
  | some el =>
    (match jsOrAttr el.categoryIdAttr el.categoryidAttr with
      | some id => if id != "" && isDigitStr id then some id else none
      | none => none)
  | none => none

/-- content.js getCategoryFromPage (lines 9-41): URL query parameters, then
the two hash patterns, then the path pattern, then the DOM data attributes,
then the category select, else null. -/
def getCategoryFromPage (page : Page) : Option String :=
  match findParamCat page paramNames with
  | some v => some v
  | none =>
  match scanFirst catSepAt page.hash.toList with
  | some v => some v
  | none =>
  match scanFirst slashDigitsAt page.hash.toList with
  | some v => some v
  | none =>
  match scanFirst pathCatAt page.pathname.toList with
  | some v => some v
  | none =>
  match domDataCategory page with
  | some v => some v
  | none =>
  match page.selectValue with
  | some v => if v != "" && isDigitStr v then some v else none
  | none => none

/-- Uppercase hexadecimal digit for a value below 16. -/
def hexDigit (n : Nat) : Char :=
  if n < 10 then Char.ofNat (48 + n) else Char.ofNat (55 + n)

/-- Characters that `encodeURIComponent` leaves unescaped
(letters, digits, and - _ . ! ~ * quote ( ) ). -/
def isUriUnreserved (c : Char) : Bool :=
  c.isAlphanum || c = '-' || c = '_' || c = '.' || c = '!' ||
  c = '~' || c = '*' || c.toNat = 39 || c = '(' || c = ')'

/-- UTF-8 bytes of a character. -/
def utf8Bytes (c : Char) : List Nat :=
  let n := c.toNat
  if n < 128 then [n]
  else if n < 2048 then [192 + n / 64, 128 + n % 64]
  else if n < 65536 then [224 + n / 4096, 128 + (n / 64) % 64, 128 + n % 64]
  else [240 + n / 262144, 128 + (n / 4096) % 64, 128 + (n / 64) % 64, 128 + n % 64]

/-- Percent-encoding of one byte. -/
def pctByte (b : Nat) : List Char := ['%', hexDigit (b / 16), hexDigit (b % 16)]

/-- JS `encodeURIComponent`. -/
def encodeURIComponent (s : String) : String :=
  String.mk (s.toList.flatMap
    (fun c => if isUriUnreserved c then [c] else (utf8Bytes c).flatMap pctByte))

/-- JSON string escaping as performed by `JSON.stringify` on a string value
(quote, backslash, and control characters). -/
def jsonEscapeChar (c : Char) : List Char :=
  if c = '"' then ['\\', '"']
  else if c = '\\' then ['\\', '\\']
  else if c = '\n' then ['\\', 'n']
  else if c = '\r' then ['\\', 'r']
  else if c = '\t' then ['\\', 't']
  else if c.toNat < 32 then
    ['\\', 'u', '0', '0', hexDigit (c.toNat / 16), hexDigit (c.toNat % 16)]
  else [c]

/-- JSON representation of a string value. -/
def jsonStr (s : String) : String :=
  String.mk ('"' :: s.toList.flatMap jsonEscapeChar ++ ['"'])

/-- JSON representation of a flat object with string values, in key order
(models `JSON.stringify(listingFilters)`). -/
def jsonStringifyObj (kvs : List (String × String)) : String :=
  let inner := String.intercalate "," (kvs.map (fun kv => jsonStr kv.1 ++ ":" ++ jsonStr kv.2))
  "\x7b" ++ inner ++ "\x7d"

/-- Backend base URL (background.js line 4). -/
def API_BASE : String := "https://lightspeed-extension-production.up.railway.app"

/-- A runtime message as delivered to the background listener. Absent JSON
fields are `none`; `listingFilters` is a flat string-valued object. -/
structure Msg where
  action : String
  connection_id : Option String := none
  categoryId : Option String := none
  listingFilters : Option (List (String × String)) := none

/-- A response passed to `sendResponse`: `ok` plus optional `error` and
`output` fields (a field whose value is JS `undefined` is dropped by message
serialization, hence modelled as `none`). -/
structure Response where
  ok : Bool
  error : Option String := none
  output : Option String := none
deriving DecidableEq

/-- Parsed JSON body of a `/api/run` backend response. -/
structure RunData where
  success : Bool := false
  airtable_url : Option String := none
  error : Option String := none
  output : Option String := none

/-- Outcome of `fetch(...).then(r => r.json())`: either parsed data, or the
rejection handled by the `.catch` branch (network error or non-JSON body). -/
inductive FetchResult where
  | ok (data : RunData)
  | failed

/-- JSON body of the POST to `/api/run` built by the runExport handler. -/
structure RunBody where
  category_id : String
  connection_id : Option String := none
  listing_filters : Option (List (String × String)) := none
deriving DecidableEq

/-- Observable effects of one background-listener invocation: the responses
sent (in order), the tab URLs opened (in order), and the `/api/run` body
issued, when a fetch was issued. -/
structure Effects where
  responses : List Response
  tabs : List String
  runBody : Option RunBody
deriving DecidableEq

/-- The trimmed stored connection id:
`(data && data.connection_id) ? data.connection_id.trim() : ""`. -/
def storedTrim : Option String → String
  | some s => strTrim s
  | none => ""

/-- The reconnect-signal test on a backend error message
(background.js line 57). -/
def reconnectSignal (e : String) : Bool :=
  strHasSub e "Reconnect" || strHasSub e "Connection not found" ||
  strHasSub e "Missing connection_id"

/-- The error message sent when the fetch to the backend fails
(background.js lines 62-64). -/
def backendUnreachableMsg : String :=
  "Could not reach export backend. Check that it is running and that API_BASE in the extension is correct."

/-- chrome-extension/background.js onMessage listener (lines 12-67), as a
function of the message, the stored `connection_id`, and the fetch outcome
used by the runExport branch. -/
def background_onMessage (msg : Msg) (stored : Option String) (fetch : FetchResult) : Effects :=
  if msg.action = "saveConnectionKey" then
    let key := strTrim (jsOrOptStr msg.connection_id "")
    if key = "" then ⟨[{ ok := false }], [], none⟩
    else ⟨[{ ok := true }], [], none⟩
  else if msg.action = "openGallery" then
    let categoryId := jsOrOptStr msg.categoryId "ALL"
    let connectionId := storedTrim stored
    if connectionId = "" then
      ⟨[{ ok := false, error := some "Not connected. Add your connection key in the extension options." }],
       [API_BASE ++ "/connect"], none⟩
    else
      ⟨[{ ok := true }],
       [API_BASE ++ "/gallery?key=" ++ encodeURIComponent connectionId ++
        "&category_id=" ++ encodeURIComponent categoryId], none⟩
  else if msg.action ≠ "runExport" then
    ⟨[{ ok := false, error := some "Unknown action" }], [], none⟩
  else
    let categoryId := jsOrOptStr msg.categoryId "ALL"
    let connectionId := storedTrim stored
    let body : RunBody :=
      { category_id := categoryId,
        connection_id := if connectionId = "" then none else some connectionId }
    match fetch with
    | .ok data =>
      let tabs :=
        if data.success && jsTruthy data.airtable_url then [data.airtable_url.getD ""]
        else if jsTruthy data.error && reconnectSignal (data.error.getD "") then
          [API_BASE ++ "/connect"]
        else []
      ⟨[{ ok := data.success, error := data.error, output := data.output }], tabs, some body⟩
    | .failed =>
      ⟨[{ ok := false, error := some backendUnreachableMsg }], [], some body⟩

/-- Effective category id of the openGallery handler
(part_001 line 25: `msg.categoryId || "ALL"`). -/
def galleryCategoryId (msg : Msg) : String := jsOrOptStr msg.categoryId "ALL"

/-- Effective listing filters of the openGallery handler
(part_001 line 26: `msg.listingFilters || \x7b\x7d`). -/
def galleryListingFilters (msg : Msg) : List (String × String) :=
  msg.listingFilters.getD []

/-- Effective category id of the runExport handler
(part_001 line 45: `msg.categoryId || "ALL"`). -/
def exportCategoryId (msg : Msg) : String := jsOrOptStr msg.categoryId "ALL"

/-- Effective listing filters of the runExport handler
(part_001 line 46: `msg.listingFilters || \x7b\x7d`). -/
def exportListingFilters (msg : Msg) : List (String × String) :=
  msg.listingFilters.getD []

/-- Gallery URL built by the part_001 openGallery handler (lines 34-35). -/
def galleryUrl (connectionId categoryId : String) (listingFilters : List (String × String)) : String :=
  let url := API_BASE ++ "/gallery?key=" ++ encodeURIComponent connectionId ++
    "&category_id=" ++ encodeURIComponent categoryId
  if listingFilters.length ≠ 0 then
    url ++ "&listing_filters=" ++ encodeURIComponent (jsonStringifyObj listingFilters)
  else url

/-- Gallery-enabled background listener (src/unnamed/part_001, lines 12-71):
identical to background.js plus optional `listingFilters` forwarding on the
openGallery and runExport branches. -/
def part001_onMessage (msg : Msg) (stored : Option String) (fetch : FetchResult) : Effects :=
  if msg.action = "saveConnectionKey" then
    let key := strTrim (jsOrOptStr msg.connection_id "")
    if key = "" then ⟨[{ ok := false }], [], none⟩
    else ⟨[{ ok := true }], [], none⟩
  else if msg.action = "openGallery" then
    let categoryId := galleryCategoryId msg
    let listingFilters := galleryListingFilters msg
    let connectionId := storedTrim stored
    if connectionId = "" then
      ⟨[{ ok := false, error := some "Not connected. Add your connection key in the extension options." }],
       [API_BASE ++ "/connect"], none⟩
    else
      ⟨[{ ok := true }], [galleryUrl connectionId categoryId listingFilters], none⟩
  else if msg.action ≠ "runExport" then
    ⟨[{ ok := false, error := some "Unknown action" }], [], none⟩
  else
    let categoryId := exportCategoryId msg
    let listingFilters := exportListingFilters msg
    let connectionId := storedTrim stored
    let body : RunBody :=
      { category_id := categoryId,
        connection_id := if connectionId = "" then none else some connectionId,
        listing_filters := if listingFilters.length ≠ 0 then some listingFilters else none }
    match fetch with
    | .ok data =>
      let tabs :=
        if data.success && jsTruthy data.airtable_url then [data.airtable_url.getD ""]
        else if jsTruthy data.error && reconnectSignal (data.error.getD "") then
          [API_BASE ++ "/connect"]
        else []
      ⟨[{ ok := data.success, error := data.error, output := data.output }], tabs, some body⟩
    | .failed =>
      ⟨[{ ok := false, error := some backendUnreachableMsg }], [], some body⟩

/-- Last `n` characters of a string (JS `s.slice(-n)` for `n ≤ s.length`). -/
def strTakeRight (s : String) (n : Nat) : String :=
  String.mk (s.toList.drop (s.toList.length - n))

/-- Truncation of diagnostic output applied by the content scripts
(content.js lines 53-54): trim, then keep at most the last 500 characters. -/
def truncOutput (output : String) : String :=
  let out := strTrim output
  if out.length > 500 then strTakeRight out 500 else out

/-- Alert message built by content.js on a failed export response
(lines 50-57): the error text (or "Export failed"), with the trimmed,
truncated diagnostic output appended after a blank line when present. -/
def failureAlertMsg (res : Response) : String :=
  let msg := jsOrOptStr res.error "Export failed"
  match res.output with
  | some output =>
    if output != "" && strTrim output != "" then msg ++ "\n\n" ++ truncOutput output else msg
  | none => msg

/-- Friendly message shown by the part_000 variant when the error carries the
reconnect signal (part_000 line 53). -/
def reconnectFriendlyMsg : String :=
  "Lightspeed sign-in expired or was revoked. We\x27ve opened the reconnect page—complete the steps there to sign in again, then try exporting again."

/-- Alert message built by the part_000 variant on a failed export response
(lines 50-59): when the error text contains "Reconnect" or "reconnect" the
friendly reconnect message replaces everything and no output is appended;
otherwise as in content.js. -/
def part000_failureAlertMsg (res : Response) : String :=
  let msg := jsOrOptStr res.error "Export failed"
  if strHasSub msg "Reconnect" || strHasSub msg "reconnect" then reconnectFriendlyMsg
  else
    match res.output with
    | some output =>
      if output != "" && strTrim output != "" then msg ++ "\n\n" ++ truncOutput output else msg
    | none => msg

/-- Category id sent by content.js runExportAndOpenAirtable (line 44):
`getCategoryFromPage() || "ALL"`. -/
def contentCategoryId (page : Page) : String :=
  jsOrOptStr (getCategoryFromPage page) "ALL"

/-- The runExport message sent by content.js runExportAndOpenAirtable
(line 49). -/
def contentRunExportMsg (page : Page) : Msg :=
  { action := "runExport", categoryId := some (contentCategoryId page) }

/-- content.js updateButton (lines 64-83), on a DOM abstracted to the number
of `ls-airtable-export-wrap` wrapper elements: on an item-search page, return
if `getElementById` finds a wrapper, else append one; otherwise remove the
found wrapper (`getElementById` finds one exactly when the count is
positive, and `remove()` deletes that single element). -/
def updateButton (itemSearch : Bool) (wrapCount : Nat) : Nat :=
  if itemSearch then
    if wrapCount > 0 then wrapCount
    else wrapCount + 1
  else
    if wrapCount > 0 then wrapCount - 1 else wrapCount

/-- Wrapper count after a sequence of updateButton invocations (one Bool per
invocation: whether the page was an item-search page), starting from a fresh
page with no wrapper. -/
def runUpdates (pages : List Bool) : Nat :=
  pages.foldl (fun c p => updateButton p c) 0

/-- Modelled from the spec: a SharedKey record of the backend SharedKeyVault
(export_backend.py is not under src/). Spec 3: label, encrypted destination
credential elided, password verifier as a salted hash; no plaintext password
persisted. -/
structure SharedKey where
  label : String
  salt : String
  verifier : String
deriving DecidableEq

/-- Modelled from the spec: the SharedKeyVault state, a keyed SharedKey table
together with the salted hash function used by the verifier. -/
structure Vault where
  keys : List (String × SharedKey)
  hash : String → String → String

/-- Modelled from the spec: result of `unlock` — success or a single
undifferentiated `UnlockFailed` value (spec 4.5: unlock failures are
indistinguishable whether the id is unknown or the password is wrong). -/
inductive UnlockResult where
  | ok
  | unlockFailed
deriving DecidableEq

/-- Lookup of a SharedKey by id in the vault. -/
def lookupKey (v : Vault) (id : String) : Option SharedKey :=
  (v.keys.find? (fun p => p.1 == id)).map (fun p => p.2)

/-- Modelled from the spec: `unlock(id, password, connectionId)` (spec 4.5).
Verifies the supplied password against the stored salted-hash verifier;
an unknown id and a failed verification both yield the same `UnlockFailed`
response. The connection association side effect is not needed here. -/
def unlock (v : Vault) (id password connectionId : String) : UnlockResult :=
  match lookupKey v id with
  | none => UnlockResult.unlockFailed
  | some k =>
    if v.hash k.salt password = k.verifier then UnlockResult.ok
    else UnlockResult.unlockFailed

theorem isDigitStr_ne_empty {v : String} (h : isDigitStr v = true) : (v != "") = true := by
  have hv : v ≠ "" := by
    intro he
    subst he
    simp [isDigitStr] at h
  simp [bne_iff_ne, hv]

theorem digitCapture_digits {rest : List Char} {r : String}
    (h : digitCapture rest = some r) : isDigitStr r = true := by
  unfold digitCapture at h
  by_cases he : (digitsRun rest).isEmpty
  · simp [he] at h
  · simp [he] at h
    subst h
    show (!(digitsRun rest).isEmpty && (digitsRun rest).all Char.isDigit) = true
    rw [Bool.and_eq_true]
    refine ⟨?_, List.all_takeWhile⟩
    cases hx : (digitsRun rest).isEmpty
    · rfl
    · exact absurd hx he

theorem catSepAt_digits {l : List Char} {r : String}
    (h : catSepAt l = some r) : isDigitStr r = true := by
  unfold catSepAt at h
  split at h
  · split at h
    · split at h
      · exact digitCapture_digits h
      · cases h
    · cases h
  · cases h

theorem slashDigitsAt_digits {l : List Char} {r : String}
    (h : slashDigitsAt l = some r) : isDigitStr r = true := by
  unfold slashDigitsAt at h
  split at h
  · rename_i rest
    split at h
    · rename_i r' hcap
      split at h
      · cases h
        exact digitCapture_digits hcap
      · split at h
        · cases h
          exact digitCapture_digits hcap
        · cases h
    · cases h
  · cases h

theorem pathCatAt_digits {l : List Char} {r : String}
    (h : pathCatAt l = some r) : isDigitStr r = true := by
  unfold pathCatAt at h
  split at h
  · split at h
    · split at h
      · split at h
        · exact digitCapture_digits h
        · cases h
      · split at h
        · split at h
          · exact digitCapture_digits h
          · cases h
        · cases h
    · cases h
  · cases h

theorem scanFirst_digits {f : List Char → Option String}
    (hf : ∀ l r, f l = some r → isDigitStr r = true) :
    ∀ {l : List Char} {r : String}, scanFirst f l = some r → isDigitStr r = true := by
  intro l
  induction l with
  | nil => intro r h; cases h
  | cons c cs ih =>
    intro r h
    unfold scanFirst at h
    split at h
    · rename_i r' hfc
      cases h
      exact hf _ _ hfc
    · exact ih h

theorem findParamCat_digits (page : Page) :
    ∀ (names : List String) {v : String},
      findParamCat page names = some v → isDigitStr v = true := by
  intro names
  induction names with
  | nil => intro v h; cases h
  | cons n ns ih =>
    intro v h
    unfold findParamCat at h
    split at h
    · rename_i u hu
      split at h
      · rename_i hguard
        cases h
        exact (Bool.and_eq_true _ _ |>.mp hguard).2
      · exact ih h
    · exact ih h

theorem findParamCat_mem (page : Page) :
    ∀ (names : List String) {v : String},
      findParamCat page names = some v → ∃ n ∈ names, getParam page n = some v := by
  intro names
  induction names with
  | nil => intro v h; cases h
  | cons n ns ih =>
    intro v h
    unfold findParamCat at h
    split at h
    · rename_i u hu
      split at h
      · cases h
        exact ⟨n, List.mem_cons_self n ns, hu⟩
      · obtain ⟨m, hm, hg⟩ := ih h
        exact ⟨m, List.mem_cons_of_mem n hm, hg⟩
    · obtain ⟨m, hm, hg⟩ := ih h
      exact ⟨m, List.mem_cons_of_mem n hm, hg⟩

theorem findParamCat_isSome (page : Page) :
    ∀ (names : List String),
      (∃ n ∈ names, ∃ v, getParam page n = some v ∧ isDigitStr v = true) →
      ∃ w, findParamCat page names = some w := by
  intro names
  induction names with
  | nil =>
    rintro ⟨n, hn, _⟩
    cases hn
  | cons n ns ih =>
    rintro ⟨m, hm, v, hv, hd⟩
    rcases List.mem_cons.mp hm with hmn | hmns
    · subst hmn
      refine ⟨v, ?_⟩
      unfold findParamCat
      rw [hv]
      simp [hd, isDigitStr_ne_empty hd]
    · unfold findParamCat
      cases hp : getParam page n with
      | some u =>
        by_cases hg : (u != "" && isDigitStr u) = true
        · simp [hg]
        · simp [hg]
          exact ih ⟨m, hmns, v, hv, hd⟩
      | none => exact ih ⟨m, hmns, v, hv, hd⟩

theorem domDataCategory_digits {page : Page} {r : String}
    (h : domDataCategory page = some r) : isDigitStr r = true := by
  unfold domDataCategory at h
  split at h
  · split at h
    · split at h
      · rename_i hguard
        cases h
        exact (Bool.and_eq_true _ _ |>.mp hguard).2
      · cases h
    · cases h
  · cases h

/-- C8: for every page state, getCategoryFromPage returns either null or a
non-empty decimal-digit string, and when one of the query parameters
category, categoryId, categoryID, category_id holds a digit string, the
returned value comes from a query parameter (param sources take preference
over hash, path and DOM sources). -/
theorem getCategoryFromPage_digits_and_param_preference (page : Page) :
    (∀ v, getCategoryFromPage page = some v → isDigitStr v = true) ∧
    ((∃ n ∈ paramNames, ∃ v, getParam page n = some v ∧ isDigitStr v = true) →
      ∃ w, getCategoryFromPage page = some w ∧
        ∃ n ∈ paramNames, getParam page n = some w ∧ isDigitStr w = true) := by
  constructor
  · intro v h
    unfold getCategoryFromPage at h
    split at h
    · rename_i v' hp
      cases h
      exact findParamCat_digits page paramNames hp
    · split at h
      · rename_i v' hp
        cases h
        exact scanFirst_digits (fun _ _ => catSepAt_digits) hp
      · split at h
        · rename_i v' hp
          cases h
          exact scanFirst_digits (fun _ _ => slashDigitsAt_digits) hp
        · split at h
          · rename_i v' hp
            cases h
            exact scanFirst_digits (fun _ _ => pathCatAt_digits) hp
          · split at h
            · rename_i v' hp
              cases h
              exact domDataCategory_digits hp
            · split at h
              · rename_i v' hp
                split at h
                · rename_i hguard
                  cases h
                  exact (Bool.and_eq_true _ _ |>.mp hguard).2
                · cases h
              · cases h
  · intro hex
    obtain ⟨w, hw⟩ := findParamCat_isSome page paramNames hex
    have hd := findParamCat_digits page paramNames hw
    obtain ⟨n, hn, hg⟩ := findParamCat_mem page paramNames hw
    refine ⟨w, ?_, n, hn, hg, hd⟩
    unfold getCategoryFromPage
    rw [hw]

/-- Witness for C8 at a concrete page whose `category` query parameter is
the digit string 639. -/
theorem getCategoryFromPage_digits_and_param_preference_witness :
    ∃ w, getCategoryFromPage ⟨[("category", "639")], "", "", none, none⟩ = some w ∧
      ∃ n ∈ paramNames,
        getParam ⟨[("category", "639")], "", "", none, none⟩ n = some w ∧
        isDigitStr w = true :=
  (getCategoryFromPage_digits_and_param_preference
      ⟨[("category", "639")], "", "", none, none⟩).2
    ⟨"category", by decide, "639", by decide, by decide⟩

theorem updateButton_of_le_one (p : Bool) (c : Nat) (hc : c ≤ 1) :
    updateButton p c = if p then 1 else 0 := by
  interval_cases c <;> cases p <;> rfl

theorem runUpdates_le_one (pages : List Bool) : runUpdates pages ≤ 1 := by
  suffices h : ∀ c, c ≤ 1 → ∀ ps : List Bool, ps.foldl (fun c p => updateButton p c) c ≤ 1 by
    exact h 0 (by omega) pages
  intro c hc ps
  induction ps generalizing c with
  | nil => exact hc
  | cons p ps ih =>
    refine ih (updateButton p c) ?_
    rw [updateButton_of_le_one p c hc]
    cases p <;> simp

/-- C9: after any non-empty sequence of updateButton invocations starting
from a page with no wrapper, the wrapper count equals one exactly on an
item-search page and zero otherwise (hence at most one), and invoking
updateButton again on an unchanged page injects no second wrapper. -/
theorem updateButton_wrapper_invariant (pages : List Bool) (p : Bool) :
    runUpdates (pages ++ [p]) = (if p then 1 else 0) ∧
    runUpdates (pages ++ [p]) ≤ 1 ∧
    updateButton p (runUpdates (pages ++ [p])) = runUpdates (pages ++ [p]) := by
  have hstep : runUpdates (pages ++ [p]) = updateButton p (runUpdates pages) := by
    unfold runUpdates
    rw [List.foldl_append]
    rfl
  have h1 : runUpdates (pages ++ [p]) = if p then 1 else 0 := by
    rw [hstep, updateButton_of_le_one p (runUpdates pages) (runUpdates_le_one pages)]
  refine ⟨h1, by rw [h1]; cases p <;> simp, ?_⟩
  rw [h1]
  cases p <;> rfl

/-- C7 (modelled from the spec, the SharedKeyVault lives in the backend that
is not under src/): unlock with a wrong password never returns success,
regardless of whether the id exists, and the failure response for an unknown
id is identical to the failure response for a wrong password on an existing
id. -/
theorem unlock_wrong_password_indistinguishable (v : Vault) (id pwd cid : String) :
    ((∀ k, lookupKey v id = some k → v.hash k.salt pwd ≠ k.verifier) →
      unlock v id pwd cid = UnlockResult.unlockFailed) ∧
    (∀ id2 pwd2 cid2, lookupKey v id = none →
      (∀ k, lookupKey v id2 = some k → v.hash k.salt pwd2 ≠ k.verifier) →
      unlock v id pwd cid = unlock v id2 pwd2 cid2) := by
  have main : ∀ (i p c : String),
      (∀ k, lookupKey v i = some k → v.hash k.salt p ≠ k.verifier) →
      unlock v i p c = UnlockResult.unlockFailed := by
    intro i p c hw
    unfold unlock
    cases hl : lookupKey v i with
    | none => rfl
    | some k => simp [hw k hl]
  refine ⟨main id pwd cid, ?_⟩
  intro id2 pwd2 cid2 hnone hw
  rw [main id pwd cid (fun k hk => by rw [hnone] at hk; cases hk), main id2 pwd2 cid2 hw]

/-- Witness for C7: a concrete one-key vault; unlocking an unknown id fails,
and the response is the same as for a wrong password on the existing id. -/
theorem unlock_wrong_password_indistinguishable_witness :
    (unlock ⟨[("k1", ⟨"label", "salt", "saltsecret"⟩)], fun s p => s ++ p⟩
        "nope" "guess" "c" = UnlockResult.unlockFailed) ∧
    (unlock ⟨[("k1", ⟨"label", "salt", "saltsecret"⟩)], fun s p => s ++ p⟩
        "nope" "guess" "c" =
      unlock ⟨[("k1", ⟨"label", "salt", "saltsecret"⟩)], fun s p => s ++ p⟩
        "k1" "guess" "c") :=
  ⟨(unlock_wrong_password_indistinguishable
      ⟨[("k1", ⟨"label", "salt", "saltsecret"⟩)], fun s p => s ++ p⟩ "nope" "guess" "c").1
      (fun k hk => by
        rw [show lookupKey ⟨[("k1", ⟨"label", "salt", "saltsecret"⟩)], fun s p => s ++ p⟩
            "nope" = none from by decide] at hk
        cases hk),
   (unlock_wrong_password_indistinguishable
      ⟨[("k1", ⟨"label", "salt", "saltsecret"⟩)], fun s p => s ++ p⟩ "nope" "guess" "c").2
      "k1" "guess" "c" (by decide)
      (fun k hk => by
        rw [show lookupKey ⟨[("k1", ⟨"label", "salt", "saltsecret"⟩)], fun s p => s ++ p⟩
            "k1" = some ⟨"label", "salt", "saltsecret"⟩ from by decide] at hk
        cases hk
        decide)⟩

/-- C6: for a gallery message and an export message carrying the same
categoryId and listingFilters fields, the openGallery and runExport handlers
of part_001 derive the same effective category id (defaulted to ALL) and the
same listing-filter set. -/
theorem gallery_export_filter_consistent (m1 m2 : Msg)
    (hc : m1.categoryId = m2.categoryId) (hf : m1.listingFilters = m2.listingFilters) :
    galleryCategoryId m1 = exportCategoryId m2 ∧
    galleryListingFilters m1 = exportListingFilters m2 := by
  unfold galleryCategoryId exportCategoryId galleryListingFilters exportListingFilters
  rw [hc, hf]
  exact ⟨rfl, rfl⟩

/-- Witness for C6 at concrete messages with the same category and filters. -/
theorem gallery_export_filter_consistent_witness :
    galleryCategoryId ⟨"openGallery", none, some "639", some [("vendor", "Acme")]⟩ =
      exportCategoryId ⟨"runExport", none, some "639", some [("vendor", "Acme")]⟩ ∧
    galleryListingFilters ⟨"openGallery", none, some "639", some [("vendor", "Acme")]⟩ =
      exportListingFilters ⟨"runExport", none, some "639", some [("vendor", "Acme")]⟩ :=
  gallery_export_filter_consistent
    ⟨"openGallery", none, some "639", some [("vendor", "Acme")]⟩
    ⟨"runExport", none, some "639", some [("vendor", "Acme")]⟩ rfl rfl

/-- C4: both background listeners reject a message whose action is none of
saveConnectionKey, openGallery, runExport with an ok-false response carrying
the "Unknown action" error, open no tab and issue no backend request. -/
theorem unknown_action_rejected (msg : Msg) (stored : Option String) (fetch : FetchResult)
    (h1 : msg.action ≠ "saveConnectionKey") (h2 : msg.action ≠ "openGallery")
    (h3 : msg.action ≠ "runExport") :
    background_onMessage msg stored fetch =
      ⟨[⟨false, some "Unknown action", none⟩], [], none⟩ ∧
    part001_onMessage msg stored fetch =
      ⟨[⟨false, some "Unknown action", none⟩], [], none⟩ := by
  unfold background_onMessage part001_onMessage
  rw [if_neg h1, if_neg h2, if_pos h3, if_neg h1, if_neg h2, if_pos h3]
  exact ⟨rfl, rfl⟩

/-- Witness for C4 at a concrete unknown action. -/
theorem unknown_action_rejected_witness :
    background_onMessage ⟨"frobnicate", none, none, none⟩ none FetchResult.failed =
      ⟨[⟨false, some "Unknown action", none⟩], [], none⟩ ∧
    part001_onMessage ⟨"frobnicate", none, none, none⟩ none FetchResult.failed =
      ⟨[⟨false, some "Unknown action", none⟩], [], none⟩ :=
  unknown_action_rejected ⟨"frobnicate", none, none, none⟩ none FetchResult.failed
    (by decide) (by decide) (by decide)

/-- C10: when the fetch of a runExport message fails (network error or
non-JSON body), both listeners send exactly one response, with ok false and
a non-empty explanatory error, and open no tab. -/
theorem runExport_fetch_failure_response (msg : Msg) (stored : Option String)
    (h : msg.action = "runExport") :
    (background_onMessage msg stored FetchResult.failed).responses =
      [⟨false, some backendUnreachableMsg, none⟩] ∧
    (part001_onMessage msg stored FetchResult.failed).responses =
      [⟨false, some backendUnreachableMsg, none⟩] ∧
    backendUnreachableMsg ≠ "" ∧
    (background_onMessage msg stored FetchResult.failed).tabs = [] ∧
    (part001_onMessage msg stored FetchResult.failed).tabs = [] := by
  unfold background_onMessage part001_onMessage
  rw [h]
  refine ⟨by simp, by simp, by decide, by simp, by simp⟩

/-- Witness for C10 at a concrete runExport message. -/
theorem runExport_fetch_failure_response_witness :
    (background_onMessage ⟨"runExport", none, none, none⟩ none FetchResult.failed).responses =
      [⟨false, some backendUnreachableMsg, none⟩] ∧
    (part001_onMessage ⟨"runExport", none, none, none⟩ none FetchResult.failed).responses =
      [⟨false, some backendUnreachableMsg, none⟩] ∧
    backendUnreachableMsg ≠ "" ∧
    (background_onMessage ⟨"runExport", none, none, none⟩ none FetchResult.failed).tabs = [] ∧
    (part001_onMessage ⟨"runExport", none, none, none⟩ none FetchResult.failed).tabs = [] :=
  runExport_fetch_failure_response ⟨"runExport", none, none, none⟩ none rfl

/-- C5: when no category filter is detected on the page, content.js sends
categoryId ALL; when a runExport message omits categoryId, the body POSTed to
/api/run carries category_id ALL; when an openGallery message omits
categoryId and a connection key is stored, the gallery tab is opened with
category id ALL. -/
theorem default_category_all (page : Page) (msg : Msg) (stored : Option String)
    (fetch : FetchResult) :
    (getCategoryFromPage page = none → (contentRunExportMsg page).categoryId = some "ALL") ∧
    (msg.action = "runExport" → msg.categoryId = none →
      ∃ body, (background_onMessage msg stored fetch).runBody = some body ∧
        body.category_id = "ALL") ∧
    (msg.action = "openGallery" → msg.categoryId = none → storedTrim stored ≠ "" →
      (part001_onMessage msg stored fetch).tabs =
        [galleryUrl (storedTrim stored) "ALL" (galleryListingFilters msg)]) := by
  refine ⟨?_, ?_, ?_⟩
  · intro h
    simp [contentRunExportMsg, contentCategoryId, h, jsOrOptStr]
  · intro ha hc
    unfold background_onMessage
    rw [ha, hc]
    cases fetch <;> simp [jsOrOptStr]
  · intro ha hc hs
    unfold part001_onMessage
    rw [ha]
    simp only [reduceIte, if_neg hs, galleryCategoryId, hc, jsOrOptStr]
    rw [if_neg (show ¬(("openGallery" : String) = "saveConnectionKey") from by decide)]

/-- Witness for C5 at a concrete empty page, a runExport message without
categoryId, and an openGallery message without categoryId with a stored key. -/
theorem default_category_all_witness :
    (contentRunExportMsg ⟨[], "", "", none, none⟩).categoryId = some "ALL" ∧
    (∃ body,
      (background_onMessage ⟨"runExport", none, none, none⟩ none FetchResult.failed).runBody =
        some body ∧ body.category_id = "ALL") ∧
    (part001_onMessage ⟨"openGallery", none, none, none⟩ (some "ckey") FetchResult.failed).tabs =
      [galleryUrl (storedTrim (some "ckey")) "ALL"
        (galleryListingFilters ⟨"openGallery", none, none, none⟩)] :=
  ⟨(default_category_all ⟨[], "", "", none, none⟩ ⟨"runExport", none, none, none⟩
      none FetchResult.failed).1 rfl,
   (default_category_all ⟨[], "", "", none, none⟩ ⟨"runExport", none, none, none⟩
      none FetchResult.failed).2.1 rfl rfl,
   (default_category_all ⟨[], "", "", none, none⟩ ⟨"openGallery", none, none, none⟩
      (some "ckey") FetchResult.failed).2.2 rfl rfl (by decide)⟩

/-- C1 counterexample: a saveConnectionKey message whose connection_id trims
to the empty string is answered with ok false and no error field, by both
background listeners. -/
theorem saveConnectionKey_blank_no_error_field :
    (background_onMessage ⟨"saveConnectionKey", some "  ", none, none⟩ none
        FetchResult.failed).responses = [⟨false, none, none⟩] ∧
    (part001_onMessage ⟨"saveConnectionKey", some "  ", none, none⟩ none
        FetchResult.failed).responses = [⟨false, none, none⟩] := by
  decide

/-- C1 (amended): both background listeners always send exactly one response
with a boolean ok, and whenever ok is false the response carries an error
field, except for the saveConnectionKey rejection of a blank connection key
and for the runExport echo of a parsed backend response that itself carried
success false and no error field. -/
theorem response_error_on_failure (msg : Msg) (stored : Option String) (fetch : FetchResult) :
    ((background_onMessage msg stored fetch).responses.length = 1 ∧
      (part001_onMessage msg stored fetch).responses.length = 1) ∧
    (∀ r, (r ∈ (background_onMessage msg stored fetch).responses ∨
           r ∈ (part001_onMessage msg stored fetch).responses) →
      r.ok = false → r.error = none →
      (msg.action = "saveConnectionKey" ∧ strTrim (jsOrOptStr msg.connection_id "") = "") ∨
      (msg.action = "runExport" ∧
        ∃ d, fetch = FetchResult.ok d ∧ d.success = false ∧ d.error = none)) := by
  unfold background_onMessage part001_onMessage
  by_cases h1 : msg.action = "saveConnectionKey"
  · simp only [if_pos h1]
    by_cases h2 : strTrim (jsOrOptStr msg.connection_id "") = ""
    · simp only [if_pos h2]
      refine ⟨⟨rfl, rfl⟩, ?_⟩
      intro r hr _ _
      exact Or.inl ⟨h1, h2⟩
    · simp only [if_neg h2]
      refine ⟨⟨rfl, rfl⟩, ?_⟩
      intro r hr hok _
      rcases hr with hr | hr <;> rw [List.mem_singleton] at hr <;> subst hr <;> cases hok
  · simp only [if_neg h1]
    by_cases h3 : msg.action = "openGallery"
    · simp only [if_pos h3]
      by_cases h4 : storedTrim stored = ""
      · simp only [if_pos h4]
        refine ⟨⟨rfl, rfl⟩, ?_⟩
        intro r hr _ herr
        rcases hr with hr | hr <;> rw [List.mem_singleton] at hr <;> subst hr <;> cases herr
      · simp only [if_neg h4]
        refine ⟨⟨rfl, rfl⟩, ?_⟩
        intro r hr hok _
        rcases hr with hr | hr <;> rw [List.mem_singleton] at hr <;> subst hr <;> cases hok
    · simp only [if_neg h3]
      by_cases h5 : msg.action = "runExport"
      · simp only [if_neg (show ¬msg.action ≠ "runExport" from fun hne => hne h5)]
        cases fetch with
        | ok d =>
          refine ⟨⟨rfl, rfl⟩, ?_⟩
          intro r hr hok herr
          rcases hr with hr | hr <;> rw [List.mem_singleton] at hr <;> subst hr <;>
            exact Or.inr ⟨h5, d, rfl, hok, herr⟩
        | failed =>
          refine ⟨⟨rfl, rfl⟩, ?_⟩
          intro r hr _ herr
          rcases hr with hr | hr <;> rw [List.mem_singleton] at hr <;> subst hr <;> cases herr
      · simp only [if_pos h5]
        refine ⟨⟨rfl, rfl⟩, ?_⟩
        intro r hr _ herr
        rcases hr with hr | hr <;> rw [List.mem_singleton] at hr <;> subst hr <;> cases herr

/-- Witness for C1 (amended) at the blank-key saveConnectionKey response. -/
theorem response_error_on_failure_witness :
    ("saveConnectionKey" = "saveConnectionKey" ∧ strTrim (jsOrOptStr (some "  ") "") = "") ∨
    ("saveConnectionKey" = "runExport" ∧
      ∃ d, FetchResult.failed = FetchResult.ok d ∧ d.success = false ∧ d.error = none) :=
  (response_error_on_failure ⟨"saveConnectionKey", some "  ", none, none⟩ none
      FetchResult.failed).2
    ⟨false, none, none⟩ (Or.inl (by decide)) rfl rfl

/-- C2 counterexample: a /api/run response with success true, an airtable
url, and an error text containing the reconnect signal opens the airtable
tab and does not open /connect (the reconnect branch is an else-if shadowed
by the success branch). -/
theorem reconnect_signal_shadowed_by_success :
    (background_onMessage ⟨"runExport", none, none, none⟩ none
        (FetchResult.ok ⟨true, some "https://airtable.com/x", some "Reconnect required", none⟩)).tabs
      = ["https://airtable.com/x"] ∧
    (API_BASE ++ "/connect") ∉
      (background_onMessage ⟨"runExport", none, none, none⟩ none
        (FetchResult.ok ⟨true, some "https://airtable.com/x", some "Reconnect required", none⟩)).tabs := by
  decide

/-- C2 (amended): for every parsed /api/run response that is not treated as
a success (success false, or no non-empty airtable_url) and whose non-empty
error text contains Reconnect, Connection not found, or Missing
connection_id, both listeners open the backend /connect page. -/
theorem reconnect_signal_opens_connect (msg : Msg) (stored : Option String) (d : RunData)
    (ha : msg.action = "runExport")
    (hs : (d.success && jsTruthy d.airtable_url) = false)
    (he : jsTruthy d.error = true)
    (hr : reconnectSignal (d.error.getD "") = true) :
    (background_onMessage msg stored (FetchResult.ok d)).tabs = [API_BASE ++ "/connect"] ∧
    (part001_onMessage msg stored (FetchResult.ok d)).tabs = [API_BASE ++ "/connect"] := by
  unfold background_onMessage part001_onMessage
  rw [ha]
  simp [hs, he, hr]

/-- Witness for C2 (amended) at a concrete failed response carrying the
reconnect signal. -/
theorem reconnect_signal_opens_connect_witness :
    (background_onMessage ⟨"runExport", none, none, none⟩ none
        (FetchResult.ok ⟨false, none, some "Reconnect required", none⟩)).tabs =
      [API_BASE ++ "/connect"] ∧
    (part001_onMessage ⟨"runExport", none, none, none⟩ none
        (FetchResult.ok ⟨false, none, some "Reconnect required", none⟩)).tabs =
      [API_BASE ++ "/connect"] :=
  reconnect_signal_opens_connect ⟨"runExport", none, none, none⟩ none
    ⟨false, none, some "Reconnect required", none⟩ rfl (by decide) (by decide) (by decide)

set_option maxRecDepth 8192 in
/-- C3 counterexample: in the part_000 variant, a failed response whose
error carries the reconnect signal and whose diagnostic output trims to more
than 500 characters is displayed as the friendly reconnect message alone:
the last 500 characters of the output do not appear in the displayed text. -/
theorem part000_reconnect_drops_output :
    part000_failureAlertMsg
        ⟨false, some "Reconnect required", some (String.mk (List.replicate 501 'a'))⟩ =
      reconnectFriendlyMsg ∧
    500 < (strTrim (String.mk (List.replicate 501 'a'))).length ∧
    strHasSub reconnectFriendlyMsg
        (strTakeRight (strTrim (String.mk (List.replicate 501 'a'))) 500) = false := by
  decide

/-- C3 (amended): for every failed export response with error text `e` and
non-empty diagnostic output, content.js appends the trimmed output truncated
to at most its last 500 characters (exactly the last 500 when the trimmed
output is longer); the part_000 variant does the same unless `e` contains
the reconnect signal, in which case the friendly reconnect message is shown
alone and no output is appended. -/
theorem output_truncation (e output : String)
    (he : e ≠ "") (ho : output ≠ "") (ht : strTrim output ≠ "") :
    failureAlertMsg ⟨false, some e, some output⟩ = e ++ "\n\n" ++ truncOutput output ∧
    (truncOutput output).length ≤ 500 ∧
    (500 < (strTrim output).length →
      (truncOutput output).length = 500 ∧
      ∃ pre, pre ++ truncOutput output = strTrim output) ∧
    ((strHasSub e "Reconnect" || strHasSub e "reconnect") = false →
      part000_failureAlertMsg ⟨false, some e, some output⟩ =
        e ++ "\n\n" ++ truncOutput output) ∧
    ((strHasSub e "Reconnect" || strHasSub e "reconnect") = true →
      part000_failureAlertMsg ⟨false, some e, some output⟩ = reconnectFriendlyMsg) := by
  have hjs : jsOrOptStr (some e) "Export failed" = e := by simp [jsOrOptStr, he]
  have hguard : (output != "" && strTrim output != "") = true := by
    simp [bne_iff_ne, ho, ht]
  have hmklen : ∀ a : List Char, (String.mk a).length = a.length := fun _ => rfl
  have htl : (strTrim output).length = (strTrim output).toList.length := rfl
  refine ⟨?_, ?_, ?_, ?_, ?_⟩
  · simp [failureAlertMsg, hjs, hguard]
  · unfold truncOutput
    by_cases hl : (strTrim output).length > 500
    · rw [if_pos hl]
      unfold strTakeRight
      rw [hmklen, List.length_drop]
      omega
    · rw [if_neg hl]
      omega
  · intro hl
    have hl' : 500 < (strTrim output).toList.length := by rw [← htl]; exact hl
    constructor
    · unfold truncOutput
      rw [if_pos (show (strTrim output).length > 500 from hl)]
      unfold strTakeRight
      rw [hmklen, List.length_drop]
      omega
    · refine ⟨String.mk ((strTrim output).toList.take ((strTrim output).toList.length - 500)), ?_⟩
      unfold truncOutput
      rw [if_pos (show (strTrim output).length > 500 from hl)]
      unfold strTakeRight
      show String.mk (_ ++ _) = strTrim output
      rw [List.take_append_drop]
      rfl
  · intro hrc
    simp [part000_failureAlertMsg, hjs, hrc, hguard]
  · intro hrc
    simp [part000_failureAlertMsg, hjs, hrc]

/-- Witness for C3 (amended) at a concrete error and a short diagnostic
output. -/
theorem output_truncation_witness :
    failureAlertMsg ⟨false, some "Boom", some " x "⟩ =
      "Boom" ++ "\n\n" ++ truncOutput " x " ∧
    (truncOutput " x ").length ≤ 500 ∧
    (500 < (strTrim " x ").length →
      (truncOutput " x ").length = 500 ∧
      ∃ pre, pre ++ truncOutput " x " = strTrim " x ") ∧
    ((strHasSub "Boom" "Reconnect" || strHasSub "Boom" "reconnect") = false →
      part000_failureAlertMsg ⟨false, some "Boom", some " x "⟩ =
        "Boom" ++ "\n\n" ++ truncOutput " x ") ∧
    ((strHasSub "Boom" "Reconnect" || strHasSub "Boom" "reconnect") = true →
      part000_failureAlertMsg ⟨false, some "Boom", some " x "⟩ = reconnectFriendlyMsg) :=
  output_truncation "Boom" " x " (by decide) (by decide) (by decide)
